import Mathlib

/-!
Verification of the three-native JS runtime binding layer.

Shallow embedding of `src/src/js_runtime.c` (the native constructors,
accessors, runtime lifecycle and eval boundary) and of the registration
tables in `src/deps/mquickjs/mqjs_stdlib.c` (the string prototype table
and the console table).

Native functions are modelled as pure functions that return both their
result and a trace of the engine-primitive operations they perform
(allocation, opaque-block attachment, GC-ref push/pop, argument
conversion, throwing), in source order.  Machine integers are modelled
as `Nat`/`Int` with explicit 32-bit masking where the C code masks.
-/

namespace ThreeNative

/-- Modelled from the spec: `FRAME_CF_CTOR` is defined in the engine header
`mquickjs.h`, which is not under `src/`; §4.1 of the spec says the
constructor-call flag is "a single reserved high bit combined into the same
channel that carries the argument count".  We fix it as bit 15 of the 32-bit
`argc` channel; the development relies only on it being a single fixed bit. -/
def FRAME_CF_CTOR : Nat := 2 ^ 15

/-- The 32-bit complement of `FRAME_CF_CTOR`: `argc` in the C source is a
32-bit `int`, and `argc &= ~FRAME_CF_CTOR` clears exactly that bit. -/
def NOT32_FRAME_CF_CTOR : Nat := 2 ^ 32 - 1 - FRAME_CF_CTOR

/-- Modelled from the spec: `JS_CLASS_USER` is the engine's first free class
id (`mquickjs.h`, not under `src/`); §3 requires class ids to be unique small
integers distinct from all built-in classes.  Its exact value is irrelevant
here; only the offsets from `js_runtime.c` matter. -/
def JS_CLASS_USER : Nat := 32

/-- `#define JS_CLASS_RECTANGLE (JS_CLASS_USER + 0)` (js_runtime.c line 14). -/
def JS_CLASS_RECTANGLE : Nat := JS_CLASS_USER + 0

/-- `#define JS_CLASS_FILLED_RECTANGLE (JS_CLASS_USER + 1)` (js_runtime.c line 15). -/
def JS_CLASS_FILLED_RECTANGLE : Nat := JS_CLASS_USER + 1

/-- An argument value as seen by `JS_ToInt32`: a value that converts to a
32-bit integer, the `undefined` padding the engine supplies for missing
arguments (§4.1: "callers supply fewer arguments than declared arity as
undefined"; `ToInt32(undefined) = 0`), or a value whose conversion raises
(e.g. an object whose `valueOf` throws). -/
inductive JSArg
  | int32 (n : Int)
  | undef
  | failing
deriving DecidableEq

/-- Engine primitive `JS_ToInt32`: converts an argument to a 32-bit int or
fails leaving a pending exception.  The conversion may re-enter script and
is therefore a collection-triggering operation (spec §4.1, §5). -/
def JS_ToInt32 : JSArg → Option Int
  | JSArg.int32 n => some n
  | JSArg.undef => some 0
  | JSArg.failing => none

/-- Engine-primitive operations a native function performs, recorded in
source order.  `setNative` is the source's `JS_SetOpaque` (attach the
malloc'd block to the instance); `getNative` is `JS_GetOpaque`;
`readBlock i` is a dereference of the attached block at int offset `i`. -/
inductive Op
  | pushGCRef
  | popGCRef
  | newObject (class_id : Nat)
  | mallocBlock
  | setNative
  | toInt32 (argIdx : Nat)
  | getNative
  | readBlock (offset : Nat)
  | throwTypeError
deriving DecidableEq

def isPushGCRef : Op → Bool
  | Op.pushGCRef => true
  | _ => false

def isPopGCRef : Op → Bool
  | Op.popGCRef => true
  | _ => false

def isSetNative : Op → Bool
  | Op.setNative => true
  | _ => false

def isToInt32 : Op → Bool
  | Op.toInt32 _ => true
  | _ => false

/-- Allocation of a script object or of an opaque native block. -/
def isAllocOp : Op → Bool
  | Op.newObject _ => true
  | Op.mallocBlock => true
  | _ => false

/-- Access to the opaque native block of the receiver (`JS_GetOpaque` or a
field dereference of the returned pointer). -/
def isBlockAccess : Op → Bool
  | Op.getNative => true
  | Op.readBlock _ => true
  | _ => false

/-- A script object instance with a native class id and its attached opaque
block.  The block is modelled by its flat int-field layout:
`RectangleData {int x; int y;}` is `[x, y]` and
`FilledRectangleData {RectangleData parent; int color;}` is `[x, y, color]` —
the parent's fields occupy the prefix at offset zero (js_runtime.c
lines 20–28). -/
structure JSInstance where
  class_id : Nat
  nativeBlock : List Int
deriving DecidableEq

/-- Engine primitive `JS_GetClassID`. -/
def JS_GetClassID (v : JSInstance) : Nat := v.class_id

/-- Engine primitive `JS_GetOpaque` (renamed): the attached native block. -/
def JS_GetNativeData (v : JSInstance) : List Int := v.nativeBlock

/-- Outcome of a native constructor call: the constructed instance
(`none` = the function returned `JS_EXCEPTION`), the argument-count value
in `argc` after the check-and-mask prologue (`none` when the function threw
before masking), and the trace of engine operations performed. -/
structure CtorOutcome where
  result : Option JSInstance
  usedArgc : Option Nat
  trace : List Op
deriving DecidableEq

/-- `js_rectangle_constructor` (js_runtime.c lines 30–47):
tests `argc & FRAME_CF_CTOR` and throws a TypeError if absent; masks the
bit; `JS_NewObjectClassUser(JS_CLASS_RECTANGLE)`; `malloc`; `JS_SetOpaque`;
then `JS_ToInt32` into `d->x` and `d->y`, returning `JS_EXCEPTION` on
conversion failure. -/
def js_rectangle_constructor (argc : Nat) (argv : List JSArg) : CtorOutcome :=
  if argc &&& FRAME_CF_CTOR = 0 then
    { result := none, usedArgc := none, trace := [Op.throwTypeError] }
  else
    match JS_ToInt32 (argv.getD 0 JSArg.undef) with
    | none =>
      { result := none, usedArgc := some (argc &&& NOT32_FRAME_CF_CTOR),
        trace := [Op.newObject JS_CLASS_RECTANGLE, Op.mallocBlock, Op.setNative,
                  Op.toInt32 0] }
    | some x =>
      match JS_ToInt32 (argv.getD 1 JSArg.undef) with
      | none =>
        { result := none, usedArgc := some (argc &&& NOT32_FRAME_CF_CTOR),
          trace := [Op.newObject JS_CLASS_RECTANGLE, Op.mallocBlock, Op.setNative,
                    Op.toInt32 0, Op.toInt32 1] }
      | some y =>
        { result := some { class_id := JS_CLASS_RECTANGLE, nativeBlock := [x, y] },
          usedArgc := some (argc &&& NOT32_FRAME_CF_CTOR),
          trace := [Op.newObject JS_CLASS_RECTANGLE, Op.mallocBlock, Op.setNative,
                    Op.toInt32 0, Op.toInt32 1] }

/-- `js_filled_rectangle_constructor` (js_runtime.c lines 100–123):
tests the constructor bit and throws if absent; `JS_PushGCRef`; masks the
bit; `JS_NewObjectClassUser(JS_CLASS_FILLED_RECTANGLE)` stored in the
protected slot; `malloc`; `JS_SetOpaque`; three `JS_ToInt32` conversions
each returning `JS_EXCEPTION` on failure (note: without popping the GC
ref); `JS_PopGCRef` only on the successful path. -/
def js_filled_rectangle_constructor (argc : Nat) (argv : List JSArg) : CtorOutcome :=
  if argc &&& FRAME_CF_CTOR = 0 then
    { result := none, usedArgc := none, trace := [Op.throwTypeError] }
  else
    match JS_ToInt32 (argv.getD 0 JSArg.undef) with
    | none =>
      { result := none, usedArgc := some (argc &&& NOT32_FRAME_CF_CTOR),
        trace := [Op.pushGCRef, Op.newObject JS_CLASS_FILLED_RECTANGLE,
                  Op.mallocBlock, Op.setNative, Op.toInt32 0] }
    | some x =>
      match JS_ToInt32 (argv.getD 1 JSArg.undef) with
      | none =>
        { result := none, usedArgc := some (argc &&& NOT32_FRAME_CF_CTOR),
          trace := [Op.pushGCRef, Op.newObject JS_CLASS_FILLED_RECTANGLE,
                    Op.mallocBlock, Op.setNative, Op.toInt32 0, Op.toInt32 1] }
      | some y =>
        match JS_ToInt32 (argv.getD 2 JSArg.undef) with
        | none =>
          { result := none, usedArgc := some (argc &&& NOT32_FRAME_CF_CTOR),
            trace := [Op.pushGCRef, Op.newObject JS_CLASS_FILLED_RECTANGLE,
                      Op.mallocBlock, Op.setNative, Op.toInt32 0, Op.toInt32 1,
                      Op.toInt32 2] }
        | some c =>
          { result := some { class_id := JS_CLASS_FILLED_RECTANGLE,
                             nativeBlock := [x, y, c] },
            usedArgc := some (argc &&& NOT32_FRAME_CF_CTOR),
            trace := [Op.pushGCRef, Op.newObject JS_CLASS_FILLED_RECTANGLE,
                      Op.mallocBlock, Op.setNative, Op.toInt32 0, Op.toInt32 1,
                      Op.toInt32 2, Op.popGCRef] }

/-- Result of a native accessor: a value or a pending exception. -/
inductive JSResultV
  | value (n : Int)
  | exception
deriving DecidableEq

/-- `js_rectangle_get_x` (js_runtime.c lines 55–64): throws unless the
receiver's class id is `JS_CLASS_RECTANGLE` or `JS_CLASS_FILLED_RECTANGLE`;
otherwise `JS_GetOpaque` and read `d->x` (int offset 0). -/
def js_rectangle_get_x (this_val : JSInstance) : JSResultV × List Op :=
  let class_id := JS_GetClassID this_val
  if class_id ≠ JS_CLASS_RECTANGLE ∧ class_id ≠ JS_CLASS_FILLED_RECTANGLE then
    (JSResultV.exception, [Op.throwTypeError])
  else
    (JSResultV.value ((JS_GetNativeData this_val).getD 0 0),
     [Op.getNative, Op.readBlock 0])

/-- `js_rectangle_get_y` (js_runtime.c lines 66–75): same guard, reads
`d->y` (int offset 1). -/
def js_rectangle_get_y (this_val : JSInstance) : JSResultV × List Op :=
  let class_id := JS_GetClassID this_val
  if class_id ≠ JS_CLASS_RECTANGLE ∧ class_id ≠ JS_CLASS_FILLED_RECTANGLE then
    (JSResultV.exception, [Op.throwTypeError])
  else
    (JSResultV.value ((JS_GetNativeData this_val).getD 1 0),
     [Op.getNative, Op.readBlock 1])

/-- `js_filled_rectangle_get_color` (js_runtime.c lines 131–139): throws
unless the receiver's class id is exactly `JS_CLASS_FILLED_RECTANGLE`;
otherwise `JS_GetOpaque` and read `d->color` (int offset 2, after the
`RectangleData` prefix). -/
def js_filled_rectangle_get_color (this_val : JSInstance) : JSResultV × List Op :=
  if JS_GetClassID this_val ≠ JS_CLASS_FILLED_RECTANGLE then
    (JSResultV.exception, [Op.throwTypeError])
  else
    (JSResultV.value ((JS_GetNativeData this_val).getD 2 0),
     [Op.getNative, Op.readBlock 2])

/-- The single `JS_SetOpaque` attachment happens exactly once in the trace,
and it happens in the prefix that precedes every `JS_ToInt32` conversion. -/
def setNativeOnceBeforeConversions (t : List Op) : Bool :=
  t.countP isSetNative = 1 &&
    (t.takeWhile (fun o => !(isToInt32 o))).countP isSetNative = 1

/-! ### Registration tables (`src/deps/mquickjs/mqjs_stdlib.c`) -/

/-- Native implementation functions referenced by the embedded tables.
Each constructor names one C function appearing in `js_string_proto` or
`js_console`; `js_print` is defined in `js_runtime.c` lines 141–163. -/
inductive NativeImpl
  | js_string_get_length
  | js_string_set_length
  | js_string_charAt
  | js_string_slice
  | js_string_substring
  | js_string_concat
  | js_string_indexOf
  | js_string_match
  | js_string_replace
  | js_string_search
  | js_string_split
  | js_string_toLowerCase
  | js_string_trim
  | js_string_toString
  | js_string_repeat
  | js_print
deriving DecidableEq

/-- A `JSPropDef` entry: `JS_CFUNC_DEF(name, length, impl)`,
`JS_CFUNC_MAGIC_DEF(name, length, impl, magic)` or
`JS_CGETSET_DEF(name, getter, setter)`. -/
inductive JSPropEntry
  | cfunc (name : String) (length : Nat) (impl : NativeImpl)
  | cfuncMagic (name : String) (length : Nat) (impl : NativeImpl) (magic : Nat)
  | cgetset (name : String) (getter : NativeImpl) (setter : Option NativeImpl)
deriving DecidableEq

def entryName : JSPropEntry → String
  | JSPropEntry.cfunc n _ _ => n
  | JSPropEntry.cfuncMagic n _ _ _ => n
  | JSPropEntry.cgetset n _ _ => n

/-- Name lookup in a member table (exact-name lookup, spec §3). -/
def tableFind (t : List JSPropEntry) (n : String) : Option JSPropEntry :=
  t.find? (fun e => entryName e == n)

/-- Modelled from the spec: the magic constants `magic_charAt`,
`magic_charCodeAt`, `magic_codePointAt` are engine enum values defined
outside `src/`; only their presence in the table matters here, no claim
depends on their values. -/
def magic_charAt : Nat := 0

def magic_charCodeAt : Nat := 1

def magic_codePointAt : Nat := 2

/-- `js_string_proto` (mqjs_stdlib.c lines 95–117), row for row. -/
def js_string_proto : List JSPropEntry :=
  [JSPropEntry.cgetset "length" NativeImpl.js_string_get_length
     (some NativeImpl.js_string_set_length),
   JSPropEntry.cfuncMagic "charAt" 1 NativeImpl.js_string_charAt magic_charAt,
   JSPropEntry.cfuncMagic "charCodeAt" 1 NativeImpl.js_string_charAt magic_charCodeAt,
   JSPropEntry.cfuncMagic "codePointAt" 1 NativeImpl.js_string_charAt magic_codePointAt,
   JSPropEntry.cfunc "slice" 2 NativeImpl.js_string_slice,
   JSPropEntry.cfunc "substring" 2 NativeImpl.js_string_substring,
   JSPropEntry.cfunc "concat" 1 NativeImpl.js_string_concat,
   JSPropEntry.cfuncMagic "indexOf" 1 NativeImpl.js_string_indexOf 0,
   JSPropEntry.cfuncMagic "lastIndexOf" 1 NativeImpl.js_string_indexOf 1,
   JSPropEntry.cfunc "match" 1 NativeImpl.js_string_match,
   JSPropEntry.cfuncMagic "replace" 2 NativeImpl.js_string_replace 0,
   JSPropEntry.cfuncMagic "replaceAll" 2 NativeImpl.js_string_replace 1,
   JSPropEntry.cfunc "search" 1 NativeImpl.js_string_search,
   JSPropEntry.cfunc "split" 2 NativeImpl.js_string_split,
   JSPropEntry.cfuncMagic "toLowerCase" 0 NativeImpl.js_string_toLowerCase 1,
   JSPropEntry.cfuncMagic "toUpperCase" 0 NativeImpl.js_string_toLowerCase 0,
   JSPropEntry.cfuncMagic "trim" 0 NativeImpl.js_string_trim 3,
   JSPropEntry.cfuncMagic "trimEnd" 0 NativeImpl.js_string_trim 2,
   JSPropEntry.cfuncMagic "trimStart" 0 NativeImpl.js_string_trim 1,
   JSPropEntry.cfunc "toString" 0 NativeImpl.js_string_toString,
   JSPropEntry.cfunc "repeat" 1 NativeImpl.js_string_repeat]

/-- Remove trailing whitespace. -/
def dropTrailingWhite (l : List Char) : List Char :=
  (l.reverse.dropWhile Char.isWhitespace).reverse

/-- Modelled from the spec: the implementation of `js_string_trim` is engine
code not under `src/` — only its three registration rows are (mqjs_stdlib.c
lines 111–113).  Spec §3 (MagicFunction) and the §8 scenario fix its
behavior: the magic integer selects the variant, `trimStart` (magic 1)
removes the leading whitespace run, `trimEnd` (magic 2) the trailing run,
and `trim` (magic 3 = 1|2) both, so magic is read as a two-bit mask. -/
def js_string_trim (magic : Nat) (s : List Char) : List Char :=
  let s1 := if magic &&& 1 ≠ 0 then s.dropWhile Char.isWhitespace else s
  if magic &&& 2 ≠ 0 then dropTrailingWhite s1 else s1

/-- `js_console` (mqjs_stdlib.c lines 314–321), row for row: all five
console members share the one implementation `js_print`. -/
def js_console : List JSPropEntry :=
  [JSPropEntry.cfunc "log" 1 NativeImpl.js_print,
   JSPropEntry.cfunc "warn" 1 NativeImpl.js_print,
   JSPropEntry.cfunc "error" 1 NativeImpl.js_print,
   JSPropEntry.cfunc "info" 1 NativeImpl.js_print,
   JSPropEntry.cfunc "debug" 1 NativeImpl.js_print]

/-! ### `js_print` and the console (`js_runtime.c` lines 141–163, 196–199) -/

/-- An argument as `js_print` sees it: either a string (printed with
`fwrite` of its bytes) or any other value, carried here by its rendering —
`JS_PrintValueF` writes it through the context log function, which
`js_runtime_new` sets to `js_log_func`, a `fwrite` to stdout. -/
inductive PrintArg
  | str (s : List Char)
  | nonstr (rendered : List Char)
deriving DecidableEq

/-- An output stream of the host process. -/
inductive OutStream
  | stdout
  | stderr
deriving DecidableEq

def isStdoutWrite (w : OutStream × List Char) : Bool :=
  match w.1 with
  | OutStream.stdout => true
  | OutStream.stderr => false

/-- One argument's writes in `js_print`: the string branch is
`fwrite(str, 1, len, stdout)`; the other branch is `JS_PrintValueF`,
reaching stdout via `js_log_func`. -/
def printArgWrites : PrintArg → List (OutStream × List Char)
  | PrintArg.str s => [(OutStream.stdout, s)]
  | PrintArg.nonstr r => [(OutStream.stdout, r)]

/-- The `for(i = 0; i < argc; i++)` loop of `js_print`: a space separator
(`putchar(' ')`) before every argument except the first, then the
argument's own writes. -/
def printLoop : Nat → List PrintArg → List (OutStream × List Char)
  | _, [] => []
  | i, a :: rest =>
      (if i ≠ 0 then [(OutStream.stdout, [' '])] else []) ++
        printArgWrites a ++ printLoop (i + 1) rest

/-- `js_print` (js_runtime.c lines 141–163): the loop's writes followed by
the final `putchar('\n')`.  The function's JS-level result is
`JS_UNDEFINED`; only the writes are modelled. -/
def js_print (args : List PrintArg) : List (OutStream × List Char) :=
  printLoop 0 args ++ [(OutStream.stdout, ['\n'])]

/-- The Lean function behind a table implementation tag, for the
implementations whose behavior is embedded here. -/
def implOutput : NativeImpl → Option (List PrintArg → List (OutStream × List Char))
  | NativeImpl.js_print => some js_print
  | _ => none

def entryImpl : JSPropEntry → Option NativeImpl
  | JSPropEntry.cfunc _ _ i => some i
  | JSPropEntry.cfuncMagic _ _ i _ => some i
  | JSPropEntry.cgetset _ _ _ => none

/-- Dispatch a console member call through the `js_console` table. -/
def consoleCall (name : String) (args : List PrintArg) :
    Option (List (OutStream × List Char)) :=
  match tableFind js_console name with
  | some e =>
    match entryImpl e with
    | some i =>
      match implOutput i with
      | some f => some (f args)
      | none => none
    | none => none
  | none => none

/-! ### Runtime lifecycle and eval boundary (`js_runtime.c` lines 201–248) -/

/-- The host-visible runtime handle `JSRuntime { JSContext *ctx; void *mem_buf; }`;
each field records whether the pointer is non-null. -/
structure JSRuntime where
  ctx : Bool
  mem_buf : Bool
deriving DecidableEq

/-- Which of the three acquisitions in `js_runtime_new` succeed:
`malloc(sizeof(JSRuntime))`, `malloc(mem_size)`, `JS_NewContext`. -/
structure AllocEnv where
  rtAllocOk : Bool
  bufAllocOk : Bool
  ctxOk : Bool
deriving DecidableEq

/-- Host-level allocation/free events of the runtime lifecycle. -/
inductive AllocEv
  | allocRT
  | freeRT
  | allocBuf
  | freeBuf
  | newCtx
  | freeCtx
  | setLog
deriving DecidableEq, BEq

/-- `js_runtime_new` (js_runtime.c lines 207–227): allocate the struct,
the memory buffer, then the context; on each failure free everything
already allocated (in source order: buffer before struct) and return NULL;
on success set the log function and return the fully initialized handle. -/
def js_runtime_new (env : AllocEnv) : Option JSRuntime × List AllocEv :=
  if !env.rtAllocOk then
    (none, [])
  else if !env.bufAllocOk then
    (none, [AllocEv.allocRT, AllocEv.freeRT])
  else if !env.ctxOk then
    (none, [AllocEv.allocRT, AllocEv.allocBuf, AllocEv.freeBuf, AllocEv.freeRT])
  else
    (some { ctx := true, mem_buf := true },
     [AllocEv.allocRT, AllocEv.allocBuf, AllocEv.newCtx, AllocEv.setLog])

/-- `js_runtime_free` (js_runtime.c lines 229–236): NULL is accepted
without effect; otherwise free the context, the buffer and the struct,
each pointer under its own null guard. -/
def js_runtime_free (rt : Option JSRuntime) : List AllocEv :=
  match rt with
  | none => []
  | some r =>
      (if r.ctx then [AllocEv.freeCtx] else []) ++
        (if r.mem_buf then [AllocEv.freeBuf] else []) ++ [AllocEv.freeRT]

/-- Every acquisition event in the list is matched by its release event. -/
def balancedAlloc (evs : List AllocEv) : Bool :=
  (evs.count AllocEv.allocRT == evs.count AllocEv.freeRT) &&
    (evs.count AllocEv.allocBuf == evs.count AllocEv.freeBuf) &&
    (evs.count AllocEv.newCtx == evs.count AllocEv.freeCtx)

/-- The value `JS_Eval` returns: a normal value (abstracted to its bits) or
the `JS_EXCEPTION` sentinel with a pending exception. -/
inductive JSEvalVal
  | val (bits : Int)
  | jsException
deriving DecidableEq

/-- Engine primitive `JS_IsException`. -/
def JS_IsException : JSEvalVal → Bool
  | JSEvalVal.jsException => true
  | JSEvalVal.val _ => false

/-- Host effects at the evaluate boundary. -/
inductive HostEff
  | getPendingException
  | printVal
  | printNewline
deriving DecidableEq, BEq

/-- `js_runtime_eval` (js_runtime.c lines 238–248): run `JS_Eval`; on an
exception result fetch the pending exception (`JS_GetException`), print it
(`JS_PrintValueF` then `printf("\n")`) and return -1; otherwise return 0. -/
def js_runtime_eval (v : JSEvalVal) : Int × List HostEff :=
  if JS_IsException v then
    (-1, [HostEff.getPendingException, HostEff.printVal, HostEff.printNewline])
  else
    (0, [])

/-! ## Helper lemmas -/

/-- A plain (non-`new`) call of the Rectangle constructor throws
immediately. -/
theorem rect_ctor_plain_call (argc : Nat) (argv : List JSArg)
    (h : argc &&& FRAME_CF_CTOR = 0) :
    js_rectangle_constructor argc argv =
      { result := none, usedArgc := none, trace := [Op.throwTypeError] } := by
  unfold js_rectangle_constructor
  rw [if_pos h]

/-- A plain (non-`new`) call of the FilledRectangle constructor throws
immediately. -/
theorem filled_ctor_plain_call (argc : Nat) (argv : List JSArg)
    (h : argc &&& FRAME_CF_CTOR = 0) :
    js_filled_rectangle_constructor argc argv =
      { result := none, usedArgc := none, trace := [Op.throwTypeError] } := by
  unfold js_filled_rectangle_constructor
  rw [if_pos h]

/-- On a constructing call the Rectangle constructor works with the masked
argument count. -/
theorem rect_ctor_used_argc (argc : Nat) (argv : List JSArg)
    (h : ¬argc &&& FRAME_CF_CTOR = 0) :
    (js_rectangle_constructor argc argv).usedArgc =
      some (argc &&& NOT32_FRAME_CF_CTOR) := by
  unfold js_rectangle_constructor
  rw [if_neg h]
  split
  · rfl
  · split <;> rfl

/-- On a constructing call the FilledRectangle constructor works with the
masked argument count. -/
theorem filled_ctor_used_argc (argc : Nat) (argv : List JSArg)
    (h : ¬argc &&& FRAME_CF_CTOR = 0) :
    (js_filled_rectangle_constructor argc argv).usedArgc =
      some (argc &&& NOT32_FRAME_CF_CTOR) := by
  unfold js_filled_rectangle_constructor
  rw [if_neg h]
  split
  · rfl
  · split
    · rfl
    · split <;> rfl

/-- On a constructing call the Rectangle constructor attaches the opaque
block exactly once and before any conversion, on every branch. -/
theorem rect_ctor_attach_order (argc : Nat) (argv : List JSArg)
    (h : ¬argc &&& FRAME_CF_CTOR = 0) :
    setNativeOnceBeforeConversions (js_rectangle_constructor argc argv).trace
      = true := by
  unfold js_rectangle_constructor
  rw [if_neg h]
  split
  · rfl
  · split <;> rfl

/-- On a constructing call the FilledRectangle constructor attaches the
opaque block exactly once and before any conversion, on every branch. -/
theorem filled_ctor_attach_order (argc : Nat) (argv : List JSArg)
    (h : ¬argc &&& FRAME_CF_CTOR = 0) :
    setNativeOnceBeforeConversions
      (js_filled_rectangle_constructor argc argv).trace = true := by
  unfold js_filled_rectangle_constructor
  rw [if_neg h]
  split
  · rfl
  · split
    · rfl
    · split <;> rfl

/-! ## Claims -/

/-- Claim C1 — the code refutes it (GC-ref leak): calling the
FilledRectangle constructor with the constructor bit set and a first
argument whose int32 conversion fails takes an early error return; the
trace of that call contains the `JS_PushGCRef` registration but no
`JS_PopGCRef`, so the protected reference is NOT unregistered on this
exit path (it is popped only on the normal return). -/
theorem filled_ctor_gcref_leak_on_error :
    ((js_filled_rectangle_constructor (FRAME_CF_CTOR + 3)
        [JSArg.failing, JSArg.int32 1, JSArg.int32 2]).result = none) ∧
    ((js_filled_rectangle_constructor (FRAME_CF_CTOR + 3)
        [JSArg.failing, JSArg.int32 1, JSArg.int32 2]).trace.countP isPushGCRef
      = 1) ∧
    ((js_filled_rectangle_constructor (FRAME_CF_CTOR + 3)
        [JSArg.failing, JSArg.int32 1, JSArg.int32 2]).trace.countP isPopGCRef
      = 0) := by
  decide

/-- Claim C2 — the code refutes it for the Rectangle constructor: a
constructing call of `js_rectangle_constructor` performs its two
`JS_ToInt32` conversions (collection-triggering operations) while the
newly allocated object is registered in no GC-ref scratch slot — the
trace contains no `JS_PushGCRef` at all. -/
theorem rect_ctor_unprotected_during_conversions :
    ((js_rectangle_constructor (FRAME_CF_CTOR + 2)
        [JSArg.int32 3, JSArg.int32 4]).trace.countP isPushGCRef = 0) ∧
    ((js_rectangle_constructor (FRAME_CF_CTOR + 2)
        [JSArg.int32 3, JSArg.int32 4]).trace.countP isToInt32 = 2) := by
  decide

/-- Claim C3: a call of either constructor without the constructor bit
throws a TypeError and returns before any allocation (the whole trace is
the throw, so no object and no opaque block is allocated); with the bit
present, the argument-count value the constructor goes on with is `argc`
with the bit masked out. -/
theorem ctor_bit_gate (argc : Nat) (argv : List JSArg) :
    if argc &&& FRAME_CF_CTOR = 0 then
      js_rectangle_constructor argc argv =
        { result := none, usedArgc := none, trace := [Op.throwTypeError] } ∧
      js_filled_rectangle_constructor argc argv =
        { result := none, usedArgc := none, trace := [Op.throwTypeError] } ∧
      (js_rectangle_constructor argc argv).trace.countP isAllocOp = 0 ∧
      (js_filled_rectangle_constructor argc argv).trace.countP isAllocOp = 0
    else
      (js_rectangle_constructor argc argv).usedArgc =
        some (argc &&& NOT32_FRAME_CF_CTOR) ∧
      (js_filled_rectangle_constructor argc argv).usedArgc =
        some (argc &&& NOT32_FRAME_CF_CTOR) := by
  by_cases h : argc &&& FRAME_CF_CTOR = 0
  · rw [if_pos h]
    refine ⟨rect_ctor_plain_call argc argv h,
            filled_ctor_plain_call argc argv h, ?_, ?_⟩
    · rw [rect_ctor_plain_call argc argv h]
      rfl
    · rw [filled_ctor_plain_call argc argv h]
      rfl
  · rw [if_neg h]
    exact ⟨rect_ctor_used_argc argc argv h, filled_ctor_used_argc argc argv h⟩

/-- Claim C4: on a receiver whose class id is not
`JS_CLASS_FILLED_RECTANGLE`, `js_filled_rectangle_get_color` throws a
TypeError and performs no access to the receiver's opaque block (its whole
trace is the throw; the class check precedes every dereference). -/
theorem get_color_wrong_class_no_deref (inst : JSInstance)
    (h : inst.class_id ≠ JS_CLASS_FILLED_RECTANGLE) :
    js_filled_rectangle_get_color inst =
      (JSResultV.exception, [Op.throwTypeError]) ∧
    (js_filled_rectangle_get_color inst).2.countP isBlockAccess = 0 := by
  have heq : js_filled_rectangle_get_color inst =
      (JSResultV.exception, [Op.throwTypeError]) := by
    unfold js_filled_rectangle_get_color
    rw [if_pos (show JS_GetClassID inst ≠ JS_CLASS_FILLED_RECTANGLE from h)]
  exact ⟨heq, by rw [heq]; rfl⟩

/-- Witness for C4 at a concrete plain-Rectangle receiver. -/
theorem get_color_wrong_class_no_deref_witness :
    js_filled_rectangle_get_color
        { class_id := JS_CLASS_RECTANGLE, nativeBlock := [3, 4] } =
      (JSResultV.exception, [Op.throwTypeError]) ∧
    (js_filled_rectangle_get_color
        { class_id := JS_CLASS_RECTANGLE, nativeBlock := [3, 4] }).2.countP
      isBlockAccess = 0 :=
  get_color_wrong_class_no_deref
    { class_id := JS_CLASS_RECTANGLE, nativeBlock := [3, 4] } (by decide)

/-- Claim C5: a FilledRectangle instance constructed from `(x, y, c)`
carries the block `[x, y, c]`, whose two-int prefix is exactly the block
of a Rectangle constructed from `(x, y)`; the parent accessors accept the
FilledRectangle instance (its class id passes the Rectangle-or-descendant
check) and return the very same `x` and `y`, with identical traces, as on
the equivalent Rectangle instance. -/
theorem derived_prefix_accessor_agreement (x y c : Int) :
    (js_filled_rectangle_constructor (FRAME_CF_CTOR + 3)
        [JSArg.int32 x, JSArg.int32 y, JSArg.int32 c]).result =
      some { class_id := JS_CLASS_FILLED_RECTANGLE, nativeBlock := [x, y, c] } ∧
    (js_rectangle_constructor (FRAME_CF_CTOR + 2)
        [JSArg.int32 x, JSArg.int32 y]).result =
      some { class_id := JS_CLASS_RECTANGLE, nativeBlock := [x, y] } ∧
    ({ class_id := JS_CLASS_FILLED_RECTANGLE,
       nativeBlock := [x, y, c] } : JSInstance).nativeBlock.take 2 =
      ({ class_id := JS_CLASS_RECTANGLE,
         nativeBlock := [x, y] } : JSInstance).nativeBlock ∧
    js_rectangle_get_x
        { class_id := JS_CLASS_FILLED_RECTANGLE, nativeBlock := [x, y, c] } =
      js_rectangle_get_x
        { class_id := JS_CLASS_RECTANGLE, nativeBlock := [x, y] } ∧
    js_rectangle_get_y
        { class_id := JS_CLASS_FILLED_RECTANGLE, nativeBlock := [x, y, c] } =
      js_rectangle_get_y
        { class_id := JS_CLASS_RECTANGLE, nativeBlock := [x, y] } ∧
    (js_rectangle_get_x
        { class_id := JS_CLASS_FILLED_RECTANGLE, nativeBlock := [x, y, c] }).1 =
      JSResultV.value x ∧
    (js_rectangle_get_y
        { class_id := JS_CLASS_FILLED_RECTANGLE, nativeBlock := [x, y, c] }).1 =
      JSResultV.value y := by
  refine ⟨rfl, rfl, rfl, rfl, rfl, rfl, rfl⟩

/-- Claim C6: on every constructing call (of either constructor), the
trace contains exactly one `JS_SetOpaque` attachment and it lies strictly
before the first `JS_ToInt32` conversion, on every branch including the
failed-conversion ones. -/
theorem opaque_attached_once_before_conversions (argc : Nat)
    (argv : List JSArg) (h : ¬argc &&& FRAME_CF_CTOR = 0) :
    setNativeOnceBeforeConversions (js_rectangle_constructor argc argv).trace
      = true ∧
    setNativeOnceBeforeConversions
      (js_filled_rectangle_constructor argc argv).trace = true :=
  ⟨rect_ctor_attach_order argc argv h, filled_ctor_attach_order argc argv h⟩

/-- Witness for C6 at a concrete constructing call. -/
theorem opaque_attached_once_before_conversions_witness :
    setNativeOnceBeforeConversions
      (js_rectangle_constructor (FRAME_CF_CTOR + 2)
        [JSArg.int32 1, JSArg.int32 2]).trace = true ∧
    setNativeOnceBeforeConversions
      (js_filled_rectangle_constructor (FRAME_CF_CTOR + 2)
        [JSArg.int32 1, JSArg.int32 2]).trace = true :=
  opaque_attached_once_before_conversions (FRAME_CF_CTOR + 2)
    [JSArg.int32 1, JSArg.int32 2] (by decide)

/-- Claim C7: the string prototype table registers "trimStart" with
magic 1, "trimEnd" with magic 2 and "trim" with magic 3, all three rows
sharing the one implementation `js_string_trim`, and applying the trim
implementation to the string "  x  " with the trimStart and trimEnd
magics yields "x  " and "  x" respectively. -/
theorem trim_magic_rows_and_behavior :
    tableFind js_string_proto "trimStart" =
      some (JSPropEntry.cfuncMagic "trimStart" 0 NativeImpl.js_string_trim 1) ∧
    tableFind js_string_proto "trimEnd" =
      some (JSPropEntry.cfuncMagic "trimEnd" 0 NativeImpl.js_string_trim 2) ∧
    tableFind js_string_proto "trim" =
      some (JSPropEntry.cfuncMagic "trim" 0 NativeImpl.js_string_trim 3) ∧
    js_string_trim 1 [' ', ' ', 'x', ' ', ' '] = ['x', ' ', ' '] ∧
    js_string_trim 2 [' ', ' ', 'x', ' ', ' '] = [' ', ' ', 'x'] := by
  decide

/-- Claim C8: at the evaluate boundary the status is always 0 or -1; it
is 0 exactly when `JS_Eval` did not produce an exception, and it is -1
exactly when the pending exception was fetched (`JS_GetException`) and
printed, in that order, before the return — no other outcome exists. -/
theorem eval_boundary_outcomes (v : JSEvalVal) :
    ((js_runtime_eval v).1 = 0 ∨ (js_runtime_eval v).1 = -1) ∧
    ((js_runtime_eval v).1 = 0 ↔ JS_IsException v = false) ∧
    ((js_runtime_eval v).1 = -1 ↔
      js_runtime_eval v =
        (-1, [HostEff.getPendingException, HostEff.printVal,
              HostEff.printNewline])) := by
  cases v with
  | val bits =>
      have h1 : js_runtime_eval (JSEvalVal.val bits) = (0, []) := rfl
      have h2 : JS_IsException (JSEvalVal.val bits) = false := rfl
      rw [h1, h2]
      decide
  | jsException => decide

/-- Claim C9: whenever any of the three acquisitions of `js_runtime_new`
fails, the function returns NULL with every already-made allocation
freed (allocation/free events balanced), and when it succeeds the
returned handle is fully initialized (non-null context and buffer);
`js_runtime_free` accepts NULL without effect. -/
theorem runtime_new_no_partial_handle (env : AllocEnv) :
    (match (js_runtime_new env).1 with
     | none => balancedAlloc (js_runtime_new env).2 = true
     | some r => r.ctx = true ∧ r.mem_buf = true) ∧
    js_runtime_free none = [] := by
  obtain ⟨a, b, c⟩ := env
  cases a <;> cases b <;> cases c <;>
    first
      | exact ⟨⟨rfl, rfl⟩, rfl⟩
      | exact ⟨rfl, rfl⟩

/-- All writes a `printLoop` run emits go to stdout, whatever the start
index and the arguments. -/
theorem printLoop_all_stdout (args : List PrintArg) (i : Nat) :
    (printLoop i args).all isStdoutWrite = true := by
  induction args generalizing i with
  | nil => rfl
  | cons a rest ih =>
      have hsep : ((if i ≠ 0 then [(OutStream.stdout, [' '])] else []) :
          List (OutStream × List Char)).all isStdoutWrite = true := by
        split <;> rfl
      cases a <;>
        simp only [printLoop, printArgWrites, List.all_append, hsep, ih,
          List.all_cons, List.all_nil, isStdoutWrite, Bool.and_true,
          Bool.true_and, Bool.and_self]

/-- Claim C10: the five console members log, warn, error, info and debug
all dispatch to the single implementation `js_print`, so on every
argument list they produce the same output; and every write `js_print`
performs goes to stdout (warn and error included — nothing is written to
stderr). -/
theorem console_members_share_js_print (args : List PrintArg) :
    consoleCall "log" args = some (js_print args) ∧
    consoleCall "warn" args = consoleCall "log" args ∧
    consoleCall "error" args = consoleCall "log" args ∧
    consoleCall "info" args = consoleCall "log" args ∧
    consoleCall "debug" args = consoleCall "log" args ∧
    (js_print args).all isStdoutWrite = true := by
  refine ⟨rfl, rfl, rfl, rfl, rfl, ?_⟩
  unfold js_print
  simp only [List.all_append, printLoop_all_stdout args 0, List.all_cons,
    List.all_nil, isStdoutWrite, Bool.and_self, Bool.true_and, Bool.and_true]

end ThreeNative
